import Mathlib

/-! # LaneFollowingView (adore/env/borderbased/lanefollowingview.h)

A shallow embedding of the facade class `adore::env::BorderBased::LaneFollowingView`.

The class owns a lane geometry (`lfg_`), the traffic on the lane (`elt_`) and a conflict set
(`cs_`), and holds a local road map (`lrm_`) and a parameter object (`apLFV_`).  The header only
*uses* the classes of these members: their declarations live in other headers.  They are
therefore taken as a parameter (`Components`): a type for each class and a function for each
member function the facade calls.  The facade itself is translated method by method.

A C++ method is translated to a function from the object before the call to the returned value
paired with the object after the call.  `double` values are only passed through by the facade
(and the two literals `20.0` and `0.0` are exact), so they are represented by rationals.
-/

namespace adore.env.BorderBased

/-- The C++ type `double`; the facade does no arithmetic on it. -/
abbrev Double := ℚ

/-- The data members of `LaneFollowingView`, in the order of their declaration. -/
structure LaneFollowingViewData (L G P T C : Type) where
  /-- local road map -/
  lrm_ : L
  /-- LaneFollowingGeometry -/
  lfg_ : G
  /-- parameters -/
  apLFV_ : P
  /-- traffic on this lane -/
  elt_ : T
  /-- conflict set -/
  cs_ : C

/-- The classes the header uses but does not declare, with the member functions it calls on them.
A field `lfg_f` stands for the member function `f` of the class of `lfg_`, and so on.  The object a
member function is called on is its first argument; a member function that updates its object
returns the new object; an accessor returns the value read. -/
structure Components where
  /-- class `LocalRoadMap` -/
  LocalRoadMap : Type
  /-- class `LaneFollowingGeometry<20, 200>` -/
  TLaneFollowingGeometry : Type
  /-- class `adore::params::APLaneFollowingView` -/
  APLaneFollowingView : Type
  /-- class `adore::env::traffic::EgoLaneTraffic` -/
  EgoLaneTraffic : Type
  /-- class `adore::env::BorderBased::ConflictSet` -/
  ConflictSet : Type
  /-- class `adore::params::AFactory` -/
  ParamsFactory : Type
  /-- class `adore::env::traffic::TrafficMap` -/
  TrafficMap : Type
  BorderSet : Type
  BorderTrace : Type
  BorderCostMap : Type
  /-- what `getMatchedBorder` returns -/
  MatchedBorder : Type
  VehicleState : Type
  PrecedenceSet : Type
  /-- what `getRightBorders` and `getLeftBorders` return -/
  BorderAccumulator : Type
  /-- what `getBorders` returns -/
  BorderList : Type
  /-- class `adore::view::TrafficQueue` -/
  TrafficQueue : Type
  /-- the vector of `Coordinate` -/
  CornerPoints : Type
  /-- the vector of `BorderOverlapSet` -/
  OverlapSet : Type
  /-- the vector of `Border*` -/
  ConfLaneBorders : Type
  /-- the multimap from conflict zones to borders -/
  PlotData : Type
  pf_getLaneFollowingView : ParamsFactory → APLaneFollowingView
  lrm_getBorderSet : LocalRoadMap → BorderSet
  lrm_getBorderTrace : LocalRoadMap → BorderTrace
  lrm_getBorderCostMap : LocalRoadMap → BorderCostMap
  lrm_getMatchedBorder : LocalRoadMap → MatchedBorder
  lrm_getVehicleState : LocalRoadMap → VehicleState
  lrm_isNavigationActive : LocalRoadMap → Bool
  lrm_getPrecedenceSet : LocalRoadMap → PrecedenceSet
  apLFV_getLookAhead : APLaneFollowingView → Double
  apLFV_getBaselineFitSmoothness : APLaneFollowingView → Double
  /-- the default constructor of the geometry -/
  lfg_new : TLaneFollowingGeometry
  lfg_update : TLaneFollowingGeometry → BorderSet → BorderTrace → BorderCostMap → MatchedBorder →
    VehicleState → Double → Double → Bool → TLaneFollowingGeometry
  lfg_getRightBorders : TLaneFollowingGeometry → BorderAccumulator
  lfg_getLeftBorders : TLaneFollowingGeometry → BorderAccumulator
  acc_getBorders : BorderAccumulator → BorderList
  lfg_isValid : TLaneFollowingGeometry → Bool
  lfg_getViewingDistance : TLaneFollowingGeometry → Double
  lfg_getHeading : TLaneFollowingGeometry → Double → Double
  lfg_getCurvature : TLaneFollowingGeometry → Double → Int → Double
  lfg_getOffsetOfLeftBorder : TLaneFollowingGeometry → Double → Double
  lfg_getOffsetOfRightBorder : TLaneFollowingGeometry → Double → Double
  /-- returns the values written to `s` and `n` -/
  lfg_toRelativeCoordinates : TLaneFollowingGeometry → Double → Double → Double × Double
  /-- returns the values written to `xe`, `ye` and `ze` -/
  lfg_toEucledianCoordinates : TLaneFollowingGeometry → Double → Double → Double × Double × Double
  /-- the constructor of the traffic object from the traffic map -/
  elt_new : TrafficMap → EgoLaneTraffic
  /-- the second argument is the view the call receives as `this` -/
  elt_mapVehiclesOnBorders : EgoLaneTraffic →
    LaneFollowingViewData LocalRoadMap TLaneFollowingGeometry APLaneFollowingView EgoLaneTraffic
      ConflictSet → BorderList → EgoLaneTraffic
  elt_getQueue : EgoLaneTraffic → TrafficQueue
  /-- the constructor of the conflict set; it stores the address of `lfg_` -/
  cs_new : ConflictSet
  /-- the second argument is the geometry behind the address stored at construction -/
  cs_update : ConflictSet → TLaneFollowingGeometry → BorderSet → PrecedenceSet → EgoLaneTraffic →
    BorderList → BorderList → ConflictSet
  cs_getCornerPoints : ConflictSet → CornerPoints
  cs_getOverlapSet : ConflictSet → OverlapSet
  cs_get_right_borders_of_conf_lanes : ConflictSet → ConfLaneBorders
  cs_getConflictSetPlotData : ConflictSet → PlotData

/-- The state of a `LaneFollowingView` object. -/
abbrev LaneFollowingView (K : Components) : Type :=
  LaneFollowingViewData K.LocalRoadMap K.TLaneFollowingGeometry K.APLaneFollowingView
    K.EgoLaneTraffic K.ConflictSet

namespace LaneFollowingView

variable (K : Components)

/-- The constructor: `lrm_(localRoadMap), elt_(trafficMap), cs_(&lfg_)`, then
`apLFV_ = paramsfactory->getLaneFollowingView()`. -/
def new (paramsfactory : K.ParamsFactory) (localRoadMap : K.LocalRoadMap)
    (trafficMap : K.TrafficMap) : LaneFollowingView K :=
  { lrm_ := localRoadMap
    lfg_ := K.lfg_new
    apLFV_ := K.pf_getLaneFollowingView paramsfactory
    elt_ := K.elt_new trafficMap
    cs_ := K.cs_new }

/-- The method `getConflictSetPlotData`: its body is `return getConflictSetPlotData();`, a call of
the method itself.  `fuel` bounds the depth of the calls; `none` is "no value returned within that
depth". -/
def getConflictSetPlotData : Nat → LaneFollowingView K → Option K.PlotData
  | 0, _ => none
  | fuel + 1, v => getConflictSetPlotData fuel v

/-- First statement of `update`: `lfg_.update(...)` on the getters of `lrm_` and `apLFV_`. -/
def geometryUpdate (v : LaneFollowingView K) : LaneFollowingView K :=
  { v with
    lfg_ := K.lfg_update v.lfg_ (K.lrm_getBorderSet v.lrm_) (K.lrm_getBorderTrace v.lrm_)
      (K.lrm_getBorderCostMap v.lrm_) (K.lrm_getMatchedBorder v.lrm_)
      (K.lrm_getVehicleState v.lrm_) (K.apLFV_getLookAhead v.apLFV_)
      (K.apLFV_getBaselineFitSmoothness v.apLFV_) (K.lrm_isNavigationActive v.lrm_) }

/-- Second statement of `update`:
`elt_.mapVehiclesOnBorders(this, *lfg_.getRightBorders()->getBorders())`. -/
def trafficProject (v : LaneFollowingView K) : LaneFollowingView K :=
  { v with
    elt_ := K.elt_mapVehiclesOnBorders v.elt_ v (K.acc_getBorders (K.lfg_getRightBorders v.lfg_)) }

/-- Third statement of `update`: `cs_.update(lrm_->getBorderSet(), lrm_->getPrecedenceSet(), &elt_,
lfg_.getRightBorders()->getBorders(), lfg_.getLeftBorders()->getBorders())`. -/
def conflictUpdate (v : LaneFollowingView K) : LaneFollowingView K :=
  { v with
    cs_ := K.cs_update v.cs_ v.lfg_ (K.lrm_getBorderSet v.lrm_) (K.lrm_getPrecedenceSet v.lrm_)
      v.elt_ (K.acc_getBorders (K.lfg_getRightBorders v.lfg_))
      (K.acc_getBorders (K.lfg_getLeftBorders v.lfg_)) }

/-- The method `update`, statement by statement, each on the object the one before left. -/
def update (v : LaneFollowingView K) : LaneFollowingView K :=
  let lfg1 := K.lfg_update v.lfg_ (K.lrm_getBorderSet v.lrm_) (K.lrm_getBorderTrace v.lrm_)
    (K.lrm_getBorderCostMap v.lrm_) (K.lrm_getMatchedBorder v.lrm_)
    (K.lrm_getVehicleState v.lrm_) (K.apLFV_getLookAhead v.apLFV_)
    (K.apLFV_getBaselineFitSmoothness v.apLFV_) (K.lrm_isNavigationActive v.lrm_)
  let this1 : LaneFollowingView K :=
    { lrm_ := v.lrm_, lfg_ := lfg1, apLFV_ := v.apLFV_, elt_ := v.elt_, cs_ := v.cs_ }
  let elt2 := K.elt_mapVehiclesOnBorders v.elt_ this1
    (K.acc_getBorders (K.lfg_getRightBorders lfg1))
  let cs3 := K.cs_update v.cs_ lfg1 (K.lrm_getBorderSet v.lrm_) (K.lrm_getPrecedenceSet v.lrm_)
    elt2 (K.acc_getBorders (K.lfg_getRightBorders lfg1))
    (K.acc_getBorders (K.lfg_getLeftBorders lfg1))
  { lrm_ := v.lrm_, lfg_ := lfg1, apLFV_ := v.apLFV_, elt_ := elt2, cs_ := cs3 }

/-- Source: `LocalRoadMap *getLocalRoadMap() { return lrm_; }` -/
def getLocalRoadMap (v : LaneFollowingView K) : K.LocalRoadMap × LaneFollowingView K :=
  (v.lrm_, v)

/-- Source: `TLaneFollowingGeometry *getGeometry() { return &lfg_; }` -/
def getGeometry (v : LaneFollowingView K) : K.TLaneFollowingGeometry × LaneFollowingView K :=
  (v.lfg_, v)

/-- Source: `bool isValid() const { return lfg_.isValid(); }` -/
def isValid (v : LaneFollowingView K) : Bool × LaneFollowingView K :=
  (K.lfg_isValid v.lfg_, v)

/-- Source: `double getViewingDistance() const { return lfg_.getViewingDistance(); }` -/
def getViewingDistance (v : LaneFollowingView K) : Double × LaneFollowingView K :=
  (K.lfg_getViewingDistance v.lfg_, v)

/-- Source: `const TrafficQueue &getOnLaneTraffic() const { return elt_.getQueue(); }` -/
def getOnLaneTraffic (v : LaneFollowingView K) : K.TrafficQueue × LaneFollowingView K :=
  (K.elt_getQueue v.elt_, v)

/-- Source: `const adore::view::ConflictSet &getConflictSet() const`: returns `cs_` itself, cast to its
base class. -/
def getConflictSet (v : LaneFollowingView K) : K.ConflictSet × LaneFollowingView K :=
  (v.cs_, v)

/-- Source: `double getSpeedLimit(double s) const { return 20.0; }` -/
def getSpeedLimit (v : LaneFollowingView K) (_s : Double) : Double × LaneFollowingView K :=
  (20.0, v)

/-- Source: `bool hasSpeedRecommendation(double s) const { return false; }` -/
def hasSpeedRecommendation (v : LaneFollowingView K) (_s : Double) : Bool × LaneFollowingView K :=
  (false, v)

/-- Source: `double getSpeedRecommendation(double s) const { return 0.0; }` -/
def getSpeedRecommendation (v : LaneFollowingView K) (_s : Double) :
    Double × LaneFollowingView K :=
  (0.0, v)

/-- Source: `double getHeading(double s) { return lfg_.getHeading(s); }` -/
def getHeading (v : LaneFollowingView K) (s : Double) : Double × LaneFollowingView K :=
  (K.lfg_getHeading v.lfg_ s, v)

/-- Source: `double getCurvature(double s, int derivative) { return lfg_.getCurvature(s, derivative); }` -/
def getCurvature (v : LaneFollowingView K) (s : Double) (derivative : Int) :
    Double × LaneFollowingView K :=
  (K.lfg_getCurvature v.lfg_ s derivative, v)

/-- Source: `double getOffsetOfLeftBorder(double s) { return lfg_.getOffsetOfLeftBorder(s); }` -/
def getOffsetOfLeftBorder (v : LaneFollowingView K) (s : Double) : Double × LaneFollowingView K :=
  (K.lfg_getOffsetOfLeftBorder v.lfg_ s, v)

/-- Source: `double getOffsetOfRightBorder(double s) { return lfg_.getOffsetOfRightBorder(s); }` -/
def getOffsetOfRightBorder (v : LaneFollowingView K) (s : Double) : Double × LaneFollowingView K :=
  (K.lfg_getOffsetOfRightBorder v.lfg_ s, v)

/-- Source: `void toRelativeCoordinates(double xe, double ye, double &s, double &n)`: the returned pair is
what the call leaves in `s` and `n`. -/
def toRelativeCoordinates (v : LaneFollowingView K) (xe ye : Double) :
    (Double × Double) × LaneFollowingView K :=
  (K.lfg_toRelativeCoordinates v.lfg_ xe ye, v)

/-- Source: `void toEucledianCoordinates(double s, double n, double &xe, double &ye, double &ze)`: the
returned triple is what the call leaves in `xe`, `ye` and `ze`. -/
def toEucledianCoordinates (v : LaneFollowingView K) (s n : Double) :
    (Double × Double × Double) × LaneFollowingView K :=
  (K.lfg_toEucledianCoordinates v.lfg_ s n, v)

/-- Source: `std::vector<Coordinate> *getCornerPoints() { return cs_.getCornerPoints(); }` -/
def getCornerPoints (v : LaneFollowingView K) : K.CornerPoints × LaneFollowingView K :=
  (K.cs_getCornerPoints v.cs_, v)

/-- Source: `std::vector<BorderOverlapSet> *getOverlapSet() { return cs_.getOverlapSet(); }` -/
def getOverlapSet (v : LaneFollowingView K) : K.OverlapSet × LaneFollowingView K :=
  (K.cs_getOverlapSet v.cs_, v)

/-- Source: `std::vector<Border *> *get_right_borders_of_conf_lanes()` -/
def get_right_borders_of_conf_lanes (v : LaneFollowingView K) :
    K.ConfLaneBorders × LaneFollowingView K :=
  (K.cs_get_right_borders_of_conf_lanes v.cs_, v)

/-- The queries of the read-only capability set, each with its arguments. -/
inductive Query : Type
  | isValid
  | getViewingDistance
  | getOnLaneTraffic
  | getConflictSet
  | getSpeedLimit (s : Double)
  | hasSpeedRecommendation (s : Double)
  | getSpeedRecommendation (s : Double)
  | getHeading (s : Double)
  | getCurvature (s : Double) (derivative : Int)
  | getOffsetOfLeftBorder (s : Double)
  | getOffsetOfRightBorder (s : Double)
  | toRelativeCoordinates (xe ye : Double)
  | toEucledianCoordinates (s n : Double)
  | getCornerPoints
  | getOverlapSet
  | get_right_borders_of_conf_lanes

/-- What a query returns, by return type. -/
inductive Answer : Type
  | bool (b : Bool)
  | double (d : Double)
  | trafficQueue (q : K.TrafficQueue)
  | conflictSet (c : K.ConflictSet)
  | relative (sn : Double × Double)
  | eucledian (p : Double × Double × Double)
  | cornerPoints (c : K.CornerPoints)
  | overlapSet (o : K.OverlapSet)
  | confLaneBorders (b : K.ConfLaneBorders)

/-- Pairs the returned value, wrapped by `f`, with the object after the call. -/
def answered {α : Type} (f : α → Answer K) (r : α × LaneFollowingView K) :
    Answer K × LaneFollowingView K :=
  (f r.1, r.2)

/-- Calls the method a query names on the view. -/
def ask (v : LaneFollowingView K) : Query → Answer K × LaneFollowingView K
  | .isValid => answered K .bool (isValid K v)
  | .getViewingDistance => answered K .double (getViewingDistance K v)
  | .getOnLaneTraffic => answered K .trafficQueue (getOnLaneTraffic K v)
  | .getConflictSet => answered K .conflictSet (getConflictSet K v)
  | .getSpeedLimit s => answered K .double (getSpeedLimit K v s)
  | .hasSpeedRecommendation s => answered K .bool (hasSpeedRecommendation K v s)
  | .getSpeedRecommendation s => answered K .double (getSpeedRecommendation K v s)
  | .getHeading s => answered K .double (getHeading K v s)
  | .getCurvature s d => answered K .double (getCurvature K v s d)
  | .getOffsetOfLeftBorder s => answered K .double (getOffsetOfLeftBorder K v s)
  | .getOffsetOfRightBorder s => answered K .double (getOffsetOfRightBorder K v s)
  | .toRelativeCoordinates xe ye => answered K .relative (toRelativeCoordinates K v xe ye)
  | .toEucledianCoordinates s n => answered K .eucledian (toEucledianCoordinates K v s n)
  | .getCornerPoints => answered K .cornerPoints (getCornerPoints K v)
  | .getOverlapSet => answered K .overlapSet (getOverlapSet K v)
  | .get_right_borders_of_conf_lanes =>
    answered K .confLaneBorders (get_right_borders_of_conf_lanes K v)

/-- The view after a sequence of queries, asked one after the other. -/
def afterQueries (v : LaneFollowingView K) : List Query → LaneFollowingView K
  | [] => v
  | q :: qs => afterQueries (ask K v q).2 qs

/-- The reading of the invalidation claim on the facade: a cycle whose geometry is invalid after
its update leaves the traffic object and the conflict set as they were, so that nothing computed
from the invalid geometry is served. -/
def GatedOnValidity : Prop :=
  ∀ v : LaneFollowingView K, (isValid K (geometryUpdate K v)).1 = false →
    (update K v).elt_ = v.elt_ ∧ (update K v).cs_ = v.cs_

end LaneFollowingView

/-! ## The components as the specification describes them

The classes of `lfg_`, `elt_` and `cs_` are declared in other headers.  Where a property is about
what a component computes (the order of the traffic queue, the value of a curvature derivative),
the component is modelled from its description: the data model and the component design of the
specification.  What the description leaves open (the curve fit, the projection of a point on a
polyline, the overlap test) stays a parameter (`Externals`). -/

namespace SpecModel

/-- Modelled from the spec: Border, "polyline segment with a stable identifier" (data model); the
class is declared in another header. -/
structure Border where
  m_id : Nat
  points : List (Double × Double)
deriving DecidableEq

/-- Modelled from the spec: VehicleState, "pose (position, heading)" (data model). -/
structure VehicleState where
  x : Double
  y : Double
  heading : Double
deriving DecidableEq

/-- Modelled from the spec: Participant, "external tracked object (id, kinematic state)" (data
model). -/
structure Participant where
  id : Nat
  x : Double
  y : Double
deriving DecidableEq

/-- Modelled from the spec: ProjectedParticipant, "a Participant mapped to (s, n) on this lane's
right border" (data model). -/
structure ProjectedParticipant where
  id : Nat
  s : Double
  n : Double
deriving DecidableEq

/-- Modelled from the spec: TrafficQueue, "sequence of ProjectedParticipant" (data model). -/
abbrev TrafficQueue := List ProjectedParticipant

/-- Modelled from the spec: the order of the traffic queue, "sorted by ascending s; ties broken by
participant id" (TrafficProjector). -/
def before (a b : ProjectedParticipant) : Prop :=
  a.s < b.s ∨ (a.s = b.s ∧ a.id ≤ b.id)

instance decidableBefore : DecidableRel before :=
  fun a b => inferInstanceAs (Decidable (a.s < b.s ∨ (a.s = b.s ∧ a.id ≤ b.id)))

/-- Modelled from the spec: which projected participants stay, "drop participants whose s falls
outside [0, viewingDistance] or whose |n| exceeds a configured lane-width tolerance"
(TrafficProjector). -/
def onLane (viewingDistance tolerance : Double) (q : ProjectedParticipant) : Bool :=
  decide (0 ≤ q.s) && decide (q.s ≤ viewingDistance) && decide (|q.n| ≤ tolerance)

/-- Modelled from the spec: TrafficProjector.project, the body of
`EgoLaneTraffic::mapVehiclesOnBorders`, which is declared in another header.  For each participant
compute (s, n) (`locate`, the projection on the right border polyline), drop it when it is off the
lane, and "insert survivors into the queue sorted by ascending s". -/
def project (locate : Participant → Double × Double) (viewingDistance tolerance : Double)
    (trackedParticipants : List Participant) : TrafficQueue :=
  ((trackedParticipants.map fun p =>
      ({ id := p.id, s := (locate p).1, n := (locate p).2 } : ProjectedParticipant)).filter
    (onLane viewingDistance tolerance)).foldr (List.orderedInsert before) []

/-- The coefficients `k * a`, `(k + 1) * a'`, ... for the coefficients `a`, `a'`, ... -/
def scaleFrom : Nat → List Double → List Double
  | _, [] => []
  | k, a :: as => (k : Double) * a :: scaleFrom (k + 1) as

/-- The derivative of a polynomial given by its coefficients, constant term first. -/
def polyDerivative (c : List Double) : List Double :=
  scaleFrom 1 c.tail

/-- The value at `s` of a polynomial given by its coefficients, constant term first. -/
def polyEval : List Double → Double → Double
  | [], _ => 0
  | a :: as, s => a + s * polyEval as s

/-- Modelled from the spec: LaneGeometryModel (data model), the state of
`LaneFollowingGeometry<20, 200>`, which is declared in another header: a validity flag, the viewing
distance, the fitted curvature polynomial (coefficients, constant term first), the heading and the
lateral offsets as functions of `s`, the two coordinate transforms of the fitted centerline, and
the selected borders. -/
structure LaneGeometryModel where
  valid : Bool
  viewingDistance : Double
  curvature : List Double
  heading : Double → Double
  offsetOfLeftBorder : Double → Double
  offsetOfRightBorder : Double → Double
  toRelative : Double → Double → Double × Double
  toEucledian : Double → Double → Double × Double × Double
  rightBorders : List Border
  leftBorders : List Border

/-- The number of coefficients of a polynomial up to its last coefficient that is not zero; 0 for
the zero polynomial. -/
def leadingCount : List Double → Nat
  | [] => 0
  | a :: as => if leadingCount as = 0 then (if a = 0 then 0 else 1) else leadingCount as + 1

/-- The degree of the fitted curvature polynomial: the index of its last coefficient that is not
zero, and -1 for the zero polynomial. -/
def LaneGeometryModel.degree (g : LaneGeometryModel) : Int :=
  (leadingCount g.curvature : Int) - 1

/-- Modelled from the spec: `getCurvature(s, derivative)` of the geometry, which is declared in
another header: "evaluate the derivative-th derivative of the fitted polynomial at s". -/
def LaneGeometryModel.getCurvature (g : LaneGeometryModel) (s : Double) (derivative : Int) :
    Double :=
  polyEval (polyDerivative^[derivative.toNat] g.curvature) s

/-- Modelled from the spec: the right-of-way outcome of a conflict zone (data model). -/
inductive Precedence : Type
  | Yield
  | HasRightOfWay
  | Unknown
deriving DecidableEq

/-- Modelled from the spec: ConflictZone, the range on this lane, the resolved precedence and the
occupancy flag (data model). -/
structure ConflictZone where
  s_in : Double
  s_out : Double
  crossing : Nat
  precedence : Precedence
  occupied : Bool
deriving DecidableEq

/-- Modelled from the spec: ConflictSet, "ordered sequence of ConflictZone" plus the diagnostic
tables (data model); the class is declared in another header. -/
structure ConflictSet where
  zones : List ConflictZone
  cornerPoints : List (Double × Double)
  overlapSet : List (Nat × Nat)
  rightBordersOfConfLanes : List Border
  plotData : List (ConflictZone × List Border)
deriving DecidableEq

/-- Modelled from the spec: the road-map snapshot of a cycle (external interfaces): border set,
border trace, border cost map, matched border id, vehicle state, navigation-active flag and
precedence relation. -/
structure LocalRoadMap where
  borderSet : List Border
  borderTrace : List Border
  borderCostMap : List (Nat × Double)
  matchedBorder : Nat
  vehicleState : VehicleState
  navigationActive : Bool
  precedenceSet : List ((Nat × Nat) × Precedence)

/-- Modelled from the spec: the configuration of the view (external interfaces): lookahead bound
and fit smoothness. -/
structure APLaneFollowingView where
  lookAhead : Double
  baselineFitSmoothness : Double

/-- Modelled from the spec: the traffic component: the tracked participants it is given and the
queue built in the last cycle. -/
structure EgoLaneTraffic where
  trafficMap : List Participant
  queue_ : TrafficQueue

/-- Modelled from the spec: what the description of the components leaves open: the curve fit of the geometry update, the
projection of a participant on the right border polyline, the configured lane-width tolerance and
the overlap detection of the conflict set update. -/
structure Externals where
  fit : List Border → List Border → List (Nat × Double) → Nat → VehicleState → Double → Double →
    Bool → LaneGeometryModel
  locate : List Border → Participant → Double × Double
  laneWidthTolerance : Double
  detect : LaneGeometryModel → List Border → List ((Nat × Nat) × Precedence) → TrafficQueue →
    List Border → List Border → ConflictSet

/-- Modelled from the spec: the geometry before the first update: not valid, nothing fitted. -/
def emptyGeometry : LaneGeometryModel :=
  { valid := false
    viewingDistance := 0
    curvature := []
    heading := fun _ => 0
    offsetOfLeftBorder := fun _ => 0
    offsetOfRightBorder := fun _ => 0
    toRelative := fun _ _ => (0, 0)
    toEucledian := fun _ _ => (0, 0, 0)
    rightBorders := []
    leftBorders := [] }

/-- Modelled from the spec: the classes of `lfg_`, `elt_` and `cs_` (declared in other headers) as
the component design describes them, for given externals: the geometry update recomputes the fit,
the traffic mapping is `project` on the tracked participants with the viewing distance of the
view it is given, the conflict set update is the overlap detection, and the accessors read the
fields. -/
def specComponents (E : Externals) : Components :=
  { LocalRoadMap := LocalRoadMap
    TLaneFollowingGeometry := LaneGeometryModel
    APLaneFollowingView := APLaneFollowingView
    EgoLaneTraffic := EgoLaneTraffic
    ConflictSet := ConflictSet
    ParamsFactory := APLaneFollowingView
    TrafficMap := List Participant
    BorderSet := List Border
    BorderTrace := List Border
    BorderCostMap := List (Nat × Double)
    MatchedBorder := Nat
    VehicleState := VehicleState
    PrecedenceSet := List ((Nat × Nat) × Precedence)
    BorderAccumulator := List Border
    BorderList := List Border
    TrafficQueue := TrafficQueue
    CornerPoints := List (Double × Double)
    OverlapSet := List (Nat × Nat)
    ConfLaneBorders := List Border
    PlotData := List (ConflictZone × List Border)
    pf_getLaneFollowingView := fun p => p
    lrm_getBorderSet := fun m => m.borderSet
    lrm_getBorderTrace := fun m => m.borderTrace
    lrm_getBorderCostMap := fun m => m.borderCostMap
    lrm_getMatchedBorder := fun m => m.matchedBorder
    lrm_getVehicleState := fun m => m.vehicleState
    lrm_isNavigationActive := fun m => m.navigationActive
    lrm_getPrecedenceSet := fun m => m.precedenceSet
    apLFV_getLookAhead := fun p => p.lookAhead
    apLFV_getBaselineFitSmoothness := fun p => p.baselineFitSmoothness
    lfg_new := emptyGeometry
    lfg_update := fun _ bs bt cm mb vs la sm nav => E.fit bs bt cm mb vs la sm nav
    lfg_getRightBorders := fun g => g.rightBorders
    lfg_getLeftBorders := fun g => g.leftBorders
    acc_getBorders := fun a => a
    lfg_isValid := fun g => g.valid
    lfg_getViewingDistance := fun g => g.viewingDistance
    lfg_getHeading := fun g s => g.heading s
    lfg_getCurvature := fun g s d => g.getCurvature s d
    lfg_getOffsetOfLeftBorder := fun g s => g.offsetOfLeftBorder s
    lfg_getOffsetOfRightBorder := fun g s => g.offsetOfRightBorder s
    lfg_toRelativeCoordinates := fun g xe ye => g.toRelative xe ye
    lfg_toEucledianCoordinates := fun g s n => g.toEucledian s n
    elt_new := fun tm => { trafficMap := tm, queue_ := [] }
    elt_mapVehiclesOnBorders := fun e this borders =>
      { e with
        queue_ := project (E.locate borders) this.lfg_.viewingDistance E.laneWidthTolerance
          e.trafficMap }
    elt_getQueue := fun e => e.queue_
    cs_new :=
      { zones := [], cornerPoints := [], overlapSet := [], rightBordersOfConfLanes := [],
        plotData := [] }
    cs_update := fun _ g bs ps e r l => E.detect g bs ps e.queue_ r l
    cs_getCornerPoints := fun c => c.cornerPoints
    cs_getOverlapSet := fun c => c.overlapSet
    cs_get_right_borders_of_conf_lanes := fun c => c.rightBordersOfConfLanes
    cs_getConflictSetPlotData := fun c => c.plotData }

end SpecModel

/-! ## A concrete instance

A straight lane along the x axis, whose right border is the axis itself: the externals of the
components are the simplest ones, so that the facade can be evaluated on concrete views. -/

namespace Example

open SpecModel

/-- A fit for a straight lane along the x axis: every border of the trace is 10 long, the model is
valid when navigation is active and the trace is not empty. -/
def straightFit (_borderSet borderTrace : List Border) (_costMap : List (Nat × Double))
    (_matchedBorder : Nat) (_vehicleState : VehicleState) (lookAhead _smoothness : Double)
    (navigationActive : Bool) : LaneGeometryModel :=
  { valid := navigationActive && !borderTrace.isEmpty
    viewingDistance := min lookAhead (10 * borderTrace.length)
    curvature := [0]
    heading := fun _ => 0
    offsetOfLeftBorder := fun _ => 7 / 2
    offsetOfRightBorder := fun _ => 0
    toRelative := fun xe ye => (xe, ye)
    toEucledian := fun s n => (s, n, 0)
    rightBorders := borderTrace
    leftBorders := [] }

/-- The precedence of a pair of borders in a precedence relation, `Unknown` when it has none. -/
def precedenceOf (ps : List ((Nat × Nat) × Precedence)) (pair : Nat × Nat) : Precedence :=
  ((ps.find? fun e => e.1 = pair).map Prod.snd).getD Precedence.Unknown

/-- An overlap detection in which every border off the lane crosses the whole window. -/
def crossAll (g : LaneGeometryModel) (borderSet : List Border)
    (ps : List ((Nat × Nat) × Precedence)) (queue : TrafficQueue)
    (rightBorders leftBorders : List Border) : ConflictSet :=
  { zones := (borderSet.filter fun b => decide (b ∉ rightBorders ∧ b ∉ leftBorders)).map fun b =>
      { s_in := 0
        s_out := g.viewingDistance
        crossing := b.m_id
        precedence := precedenceOf ps (((rightBorders.map Border.m_id).headD 0), b.m_id)
        occupied := queue.any fun p => decide (0 ≤ p.s ∧ p.s ≤ g.viewingDistance) }
    cornerPoints := []
    overlapSet := []
    rightBordersOfConfLanes :=
      borderSet.filter fun b => decide (b ∉ rightBorders ∧ b ∉ leftBorders)
    plotData := [] }

/-- The externals of the straight lane: a participant at (x, y) is at progress x with lateral
offset y. -/
def straightLane : Externals :=
  { fit := straightFit
    locate := fun _ p => (p.x, p.y)
    laneWidthTolerance := 4
    detect := crossAll }

/-- The components of the straight lane. -/
abbrev lane : Components := specComponents straightLane

/-- The border of the lane. -/
def b1 : Border := { m_id := 1, points := [(0, 0), (10, 0)] }

/-- A border that crosses the lane. -/
def b2 : Border := { m_id := 2, points := [(5, -5), (5, 5)] }

/-- A road map whose trace is the border of the lane, with navigation not active. -/
def roadMapInactive : LocalRoadMap :=
  { borderSet := [b1, b2]
    borderTrace := [b1]
    borderCostMap := []
    matchedBorder := 1
    vehicleState := { x := 0, y := 0, heading := 0 }
    navigationActive := false
    precedenceSet := [((1, 2), Precedence.Yield)] }

/-- The configuration: a lookahead of 100. -/
def params : APLaneFollowingView :=
  { lookAhead := 100, baselineFitSmoothness := 1 / 20 }

/-- A view as constructed, before any update, on the road map with navigation not active and one
tracked participant, number 7 at (3, 1). -/
def view0 : LaneFollowingView lane :=
  LaneFollowingView.new lane params roadMapInactive [{ id := 7, x := 3, y := 1 }]

/-- A view whose fitted curvature polynomial has degree 2. -/
def view2 : LaneFollowingView lane :=
  { view0 with
    lfg_ := { emptyGeometry with valid := true, viewingDistance := 10,
                                 curvature := [1 / 50, 1 / 100, 3] } }

end Example

/-! ## The facade -/

namespace LaneFollowingView

variable (K : Components)

theorem update_eq_stages (v : LaneFollowingView K) :
    update K v = conflictUpdate K (trafficProject K (geometryUpdate K v)) :=
  rfl

theorem ask_snd (v : LaneFollowingView K) (q : Query) : (ask K v q).2 = v := by
  cases q <;> rfl

theorem afterQueries_eq (v : LaneFollowingView K) (qs : List Query) :
    afterQueries K v qs = v := by
  induction qs generalizing v with
  | nil => rfl
  | cons q qs ih => rw [afterQueries, ask_snd, ih]

/-- C1: `update()` is the conflict set update after the traffic projection after the geometry
update.  The geometry is updated from the road map and the parameters of the view as it was; the
traffic is mapped on the right borders of the geometry the first stage left, in the view the first
stage left; the conflict set is updated with the geometry the first stage left, its right and left
borders, and the traffic object the second stage left.  The road map and the parameters are not
touched. -/
theorem update_runs_three_stages_in_order (v : LaneFollowingView K) :
    update K v = conflictUpdate K (trafficProject K (geometryUpdate K v)) ∧
    (update K v).lfg_ =
      K.lfg_update v.lfg_ (K.lrm_getBorderSet v.lrm_) (K.lrm_getBorderTrace v.lrm_)
        (K.lrm_getBorderCostMap v.lrm_) (K.lrm_getMatchedBorder v.lrm_)
        (K.lrm_getVehicleState v.lrm_) (K.apLFV_getLookAhead v.apLFV_)
        (K.apLFV_getBaselineFitSmoothness v.apLFV_) (K.lrm_isNavigationActive v.lrm_) ∧
    (update K v).elt_ =
      K.elt_mapVehiclesOnBorders v.elt_ (geometryUpdate K v)
        (K.acc_getBorders (K.lfg_getRightBorders (geometryUpdate K v).lfg_)) ∧
    (update K v).cs_ =
      K.cs_update v.cs_ (geometryUpdate K v).lfg_ (K.lrm_getBorderSet v.lrm_)
        (K.lrm_getPrecedenceSet v.lrm_) (trafficProject K (geometryUpdate K v)).elt_
        (K.acc_getBorders (K.lfg_getRightBorders (geometryUpdate K v).lfg_))
        (K.acc_getBorders (K.lfg_getLeftBorders (geometryUpdate K v).lfg_)) ∧
    (update K v).lrm_ = v.lrm_ ∧ (update K v).apLFV_ = v.apLFV_ :=
  ⟨update_eq_stages K v, rfl, rfl, rfl, rfl, rfl⟩

/-- C2 (the code does not do this): a call of `getConflictSetPlotData()` returns no plot data,
whatever the view and however deep the calls are followed: the method only calls itself and never
reads the conflict set. -/
theorem getConflictSetPlotData_never_returns (fuel : Nat) (v : LaneFollowingView K) :
    getConflictSetPlotData K fuel v = none := by
  induction fuel with
  | zero => rfl
  | succ n ih => rw [getConflictSetPlotData, ih]

/-- C3 (as amended): when the geometry is invalid after its update, `isValid()` returns false after
`update()`, and nothing else is gated: the traffic queue served is the one mapped on the right
borders of that geometry, the conflict set served is the one updated with that geometry, and the
geometry queries return what that geometry returns. -/
theorem invalid_cycle_is_only_flagged (v : LaneFollowingView K)
    (h : K.lfg_isValid (geometryUpdate K v).lfg_ = false) :
    (isValid K (update K v)).1 = false ∧
    (getOnLaneTraffic K (update K v)).1 =
      K.elt_getQueue (K.elt_mapVehiclesOnBorders v.elt_ (geometryUpdate K v)
        (K.acc_getBorders (K.lfg_getRightBorders (geometryUpdate K v).lfg_))) ∧
    (getConflictSet K (update K v)).1 =
      K.cs_update v.cs_ (geometryUpdate K v).lfg_ (K.lrm_getBorderSet v.lrm_)
        (K.lrm_getPrecedenceSet v.lrm_) (trafficProject K (geometryUpdate K v)).elt_
        (K.acc_getBorders (K.lfg_getRightBorders (geometryUpdate K v).lfg_))
        (K.acc_getBorders (K.lfg_getLeftBorders (geometryUpdate K v).lfg_)) ∧
    (∀ s, (getHeading K (update K v) s).1 = K.lfg_getHeading (geometryUpdate K v).lfg_ s) ∧
    (∀ s d, (getCurvature K (update K v) s d).1 =
      K.lfg_getCurvature (geometryUpdate K v).lfg_ s d) ∧
    (∀ s, (getOffsetOfLeftBorder K (update K v) s).1 =
      K.lfg_getOffsetOfLeftBorder (geometryUpdate K v).lfg_ s) ∧
    (∀ s, (getOffsetOfRightBorder K (update K v) s).1 =
      K.lfg_getOffsetOfRightBorder (geometryUpdate K v).lfg_ s) ∧
    (∀ xe ye, (toRelativeCoordinates K (update K v) xe ye).1 =
      K.lfg_toRelativeCoordinates (geometryUpdate K v).lfg_ xe ye) ∧
    (∀ s n, (toEucledianCoordinates K (update K v) s n).1 =
      K.lfg_toEucledianCoordinates (geometryUpdate K v).lfg_ s n) :=
  ⟨h, rfl, rfl, fun _ => rfl, fun _ _ => rfl, fun _ => rfl, fun _ => rfl, fun _ _ => rfl,
    fun _ _ => rfl⟩

/-- C5: no query of the read-only capability set changes the view: the view after the query is the
view before it, for every query and all arguments; and a query asked again, after any number of
other queries and no `update()`, returns the same result. -/
theorem queries_leave_the_view_unchanged (v : LaneFollowingView K) (q : Query) :
    (ask K v q).2 = v ∧
    ∀ qs : List Query, (ask K (afterQueries K v qs) q).1 = (ask K v q).1 :=
  ⟨ask_snd K v q, fun qs => by rw [afterQueries_eq]⟩

/-- C6: the speed queries are constants: for every view and every progress `s`, `getSpeedLimit(s)`
is 20, `hasSpeedRecommendation(s)` is false and `getSpeedRecommendation(s)` is 0. -/
theorem speed_queries_are_constants (v : LaneFollowingView K) (s : Double) :
    (getSpeedLimit K v s).1 = 20 ∧ (hasSpeedRecommendation K v s).1 = false ∧
    (getSpeedRecommendation K v s).1 = 0 := by
  refine ⟨?_, rfl, ?_⟩
  · norm_num [getSpeedLimit]
  · norm_num [getSpeedRecommendation]

/-- C10: the geometry queries of the facade return exactly what the same query of the owned
geometry returns for the same arguments: `isValid`, `getViewingDistance`, `getHeading`,
`getCurvature`, `getOffsetOfLeftBorder`, `getOffsetOfRightBorder`, `toRelativeCoordinates` and
`toEucledianCoordinates`. -/
theorem geometry_queries_delegate (v : LaneFollowingView K) (s n xe ye : Double) (d : Int) :
    (isValid K v).1 = K.lfg_isValid v.lfg_ ∧
    (getViewingDistance K v).1 = K.lfg_getViewingDistance v.lfg_ ∧
    (getHeading K v s).1 = K.lfg_getHeading v.lfg_ s ∧
    (getCurvature K v s d).1 = K.lfg_getCurvature v.lfg_ s d ∧
    (getOffsetOfLeftBorder K v s).1 = K.lfg_getOffsetOfLeftBorder v.lfg_ s ∧
    (getOffsetOfRightBorder K v s).1 = K.lfg_getOffsetOfRightBorder v.lfg_ s ∧
    (toRelativeCoordinates K v xe ye).1 = K.lfg_toRelativeCoordinates v.lfg_ xe ye ∧
    (toEucledianCoordinates K v s n).1 = K.lfg_toEucledianCoordinates v.lfg_ s n :=
  ⟨rfl, rfl, rfl, rfl, rfl, rfl, rfl, rfl⟩

end LaneFollowingView

/-! ## The components as described -/

namespace SpecModel

theorem before_total (a b : ProjectedParticipant) : before a b ∨ before b a := by
  unfold before
  rcases lt_trichotomy a.s b.s with h | h | h
  · exact Or.inl (Or.inl h)
  · rcases le_total a.id b.id with hid | hid
    · exact Or.inl (Or.inr ⟨h, hid⟩)
    · exact Or.inr (Or.inr ⟨h.symm, hid⟩)
  · exact Or.inr (Or.inl h)

theorem before_trans (a b c : ProjectedParticipant) (hab : before a b) (hbc : before b c) :
    before a c := by
  unfold before at *
  rcases hab with h1 | ⟨h1, i1⟩ <;> rcases hbc with h2 | ⟨h2, i2⟩
  · exact Or.inl (lt_trans h1 h2)
  · exact Or.inl (h2 ▸ h1)
  · exact Or.inl (h1 ▸ h2)
  · exact Or.inr ⟨h1.trans h2, le_trans i1 i2⟩

theorem before_le (a b : ProjectedParticipant) (h : before a b) : a.s ≤ b.s := by
  rcases h with h | ⟨h, _⟩
  · exact le_of_lt h
  · exact le_of_eq h

theorem sorted_foldr_orderedInsert (l : List ProjectedParticipant) :
    List.Sorted before (l.foldr (List.orderedInsert before) []) := by
  haveI : IsTotal ProjectedParticipant before := ⟨before_total⟩
  haveI : IsTrans ProjectedParticipant before := ⟨before_trans⟩
  induction l with
  | nil => exact List.sorted_nil
  | cons a l ih => exact List.Sorted.orderedInsert a _ ih

theorem project_ascending (locate : Participant → Double × Double)
    (viewingDistance tolerance : Double) (ps : List Participant) :
    List.Chain' (fun a b : ProjectedParticipant => a.s ≤ b.s)
      (project locate viewingDistance tolerance ps) := by
  unfold project
  exact List.Pairwise.chain' ((sorted_foldr_orderedInsert _).imp (before_le _ _))

theorem leadingCount_scaleFrom (k : Nat) (hk : k ≠ 0) (l : List Double) :
    leadingCount (scaleFrom k l) = leadingCount l := by
  induction l generalizing k with
  | nil => rfl
  | cons a l ih =>
    have hk0 : (k : Double) ≠ 0 := Nat.cast_ne_zero.mpr hk
    simp [scaleFrom, leadingCount, ih (k + 1) (Nat.succ_ne_zero k), hk0]

theorem leadingCount_polyDerivative (c : List Double) :
    leadingCount (polyDerivative c) = leadingCount c - 1 := by
  cases c with
  | nil => rfl
  | cons a as =>
    rw [polyDerivative, List.tail_cons, leadingCount_scaleFrom 1 one_ne_zero, leadingCount]
    by_cases h : leadingCount as = 0
    · by_cases ha : a = 0 <;> simp [h, ha]
    · simp [h]

theorem leadingCount_iterate_polyDerivative (n : Nat) (c : List Double) :
    leadingCount (polyDerivative^[n] c) = leadingCount c - n := by
  induction n generalizing c with
  | zero => rfl
  | succ n ih =>
    rw [Function.iterate_succ_apply, ih, leadingCount_polyDerivative]
    omega

theorem polyEval_of_leadingCount_zero (c : List Double) (s : Double)
    (h : leadingCount c = 0) : polyEval c s = 0 := by
  induction c with
  | nil => rfl
  | cons a as ih =>
    rw [leadingCount] at h
    by_cases has : leadingCount as = 0
    · by_cases ha : a = 0
      · simp [polyEval, ih has, ha]
      · simp [has, ha] at h
    · simp [has] at h

theorem getCurvature_beyond_degree (g : LaneGeometryModel) (s : Double) (d : Int)
    (h : g.degree < d) : g.getCurvature s d = 0 := by
  apply polyEval_of_leadingCount_zero
  rw [leadingCount_iterate_polyDerivative]
  unfold LaneGeometryModel.degree at h
  omega

/-- C8 (traffic component as described): after every `update()` the queue `getOnLaneTraffic()`
returns is in ascending order of progress: of two consecutive entries the earlier has the smaller
or the same `s`. -/
theorem traffic_queue_ascending_after_update (E : Externals)
    (v : LaneFollowingView (specComponents E)) :
    List.Chain' (fun a b : ProjectedParticipant => a.s ≤ b.s)
      (LaneFollowingView.getOnLaneTraffic (specComponents E)
        (LaneFollowingView.update (specComponents E) v)).1 :=
  project_ascending _ _ _ _

/-- C9 (geometry as described): for every progress `s` and every derivative order `d` greater than
the degree of the fitted curvature polynomial, `getCurvature(s, d)` returns 0. -/
theorem curvature_beyond_degree_is_zero (E : Externals)
    (v : LaneFollowingView (specComponents E)) (s : Double) (d : Int)
    (h : LaneGeometryModel.degree v.lfg_ < d) :
    (LaneFollowingView.getCurvature (specComponents E) v s d).1 = 0 :=
  getCurvature_beyond_degree v.lfg_ s d h

end SpecModel

/-! ## The concrete instance -/

namespace Example

open SpecModel LaneFollowingView

theorem queue_after_update_view0 :
    (update lane view0).elt_.queue_ = [{ id := 7, s := 3, n := 1 }] := by
  show project (fun p => (p.x, p.y)) (min 100 (10 * ([b1].length : ℚ))) 4
    [{ id := 7, x := 3, y := 1 }] = _
  norm_num [project, onLane, List.filter]

/-- C3 (as stated, refuted): on the straight lane, the cycle of a new view whose road map has
navigation not active leaves the geometry invalid, and still the traffic object is replaced: the
queue served after it, empty before, holds participant 7 at the progress 3 computed in that cycle,
the viewing distance served is the 10 of the invalid geometry, and the conflict set is not the one
from before. -/
theorem invalid_cycle_is_served :
    ¬ GatedOnValidity lane ∧
    (isValid lane (update lane view0)).1 = false ∧
    (getOnLaneTraffic lane view0).1 = [] ∧
    (getOnLaneTraffic lane (update lane view0)).1 = [{ id := 7, s := 3, n := 1 }] ∧
    (getViewingDistance lane (update lane view0)).1 = 10 ∧
    (getConflictSet lane (update lane view0)).1 ≠ (getConflictSet lane view0).1 := by
  refine ⟨fun h => ?_, rfl, rfl, queue_after_update_view0, ?_, ?_⟩
  · have h1 := congrArg EgoLaneTraffic.queue_ (h view0 rfl).1
    rw [queue_after_update_view0] at h1
    exact List.cons_ne_nil _ _ h1
  · show min (100 : ℚ) (10 * ([b1].length : ℚ)) = 10
    norm_num
  · intro h
    have h1 := congrArg (fun c => c.rightBordersOfConfLanes.length) h
    revert h1
    show ((([b1, b2].filter fun b => decide (b ∉ [b1] ∧ b ∉ ([] : List Border)))).length = 0) → False
    simp [b1, b2, List.filter]

/-- Witness of C3 as amended: the cycle of `view0`, whose geometry is invalid after its update. -/
theorem invalid_cycle_is_only_flagged_witness :
    lane.lfg_isValid (geometryUpdate lane view0).lfg_ = false ∧
    (isValid lane (update lane view0)).1 = false ∧
    (getOnLaneTraffic lane (update lane view0)).1 =
      lane.elt_getQueue (lane.elt_mapVehiclesOnBorders view0.elt_ (geometryUpdate lane view0)
        (lane.acc_getBorders (lane.lfg_getRightBorders (geometryUpdate lane view0).lfg_))) :=
  ⟨rfl, (invalid_cycle_is_only_flagged lane view0 rfl).1,
    (invalid_cycle_is_only_flagged lane view0 rfl).2.1⟩

/-- Witness of C9: the curvature polynomial of `view2` has degree 2, and its third derivative at
progress 2 is 0. -/
theorem curvature_beyond_degree_is_zero_witness :
    LaneGeometryModel.degree view2.lfg_ < 3 ∧ (getCurvature lane view2 2 3).1 = 0 :=
  ⟨by decide, curvature_beyond_degree_is_zero straightLane view2 2 3 (by decide)⟩

end Example

end adore.env.BorderBased
